import Mathlib

/-!
Verification of the data-acquisition layer of the disease dashboard
(`src/app.py`): the USPS region-code table, the per-state snapshot
fetcher (two HTTP retrievals, left merge, clipped deltas, code filter),
the two time-series fetchers (ascending sort by date, clipped first
difference), and the TTL result cache wrapping them.

Network retrievals are modelled by passing each HTTP response in as an
explicit `Except FetchError` value; pandas missing values (NaN / null)
are modelled as `Option Int`.
-/

/-- Outcome of one upstream HTTP GET: a network failure/timeout or a
non-2xx status from `raise_for_status`. -/
inductive FetchError where
  | network : FetchError
  | badStatus : Nat → FetchError
deriving DecidableEq, Repr

/-- One element of the JSON array from `GET /v3/covid-19/states`, reduced
to the columns kept by `keep_cols = ["state", "cases", "deaths"]`
(app.py line 45). With `allowNull=true` a count may be null. -/
structure StateRow where
  state : String
  cases : Option Int
  deaths : Option Int
deriving DecidableEq, Repr

/-- One row of `df = today.merge(yest, on="state", how="left")`
(app.py line 49) after the renames on lines 46-47. -/
structure MergedRow where
  state : String
  cases_today : Option Int
  deaths_today : Option Int
  cases_yest : Option Int
  deaths_yest : Option Int
deriving DecidableEq, Repr

/-- One row of the DataFrame returned by `fetch_states_snapshot`
(app.py lines 52-61): the merged columns plus the computed deltas and
the mapped USPS code (`none` models NaN before the notna filter). -/
structure SnapRow where
  state : String
  cases_today : Option Int
  deaths_today : Option Int
  cases_yest : Option Int
  deaths_yest : Option Int
  todayCases : Int
  todayDeaths : Int
  state_code : Option String
deriving DecidableEq, Repr

/-- The `USPS` dict of app.py lines 15-24, in source order. -/
def USPS : List (String × String) := [
  ("Alabama", "AL"), ("Alaska", "AK"), ("Arizona", "AZ"), ("Arkansas", "AR"),
  ("California", "CA"), ("Colorado", "CO"), ("Connecticut", "CT"),
  ("Delaware", "DE"), ("District of Columbia", "DC"), ("Florida", "FL"),
  ("Georgia", "GA"), ("Hawaii", "HI"), ("Idaho", "ID"), ("Illinois", "IL"),
  ("Indiana", "IN"), ("Iowa", "IA"), ("Kansas", "KS"), ("Kentucky", "KY"),
  ("Louisiana", "LA"), ("Maine", "ME"), ("Maryland", "MD"),
  ("Massachusetts", "MA"), ("Michigan", "MI"), ("Minnesota", "MN"),
  ("Mississippi", "MS"), ("Missouri", "MO"), ("Montana", "MT"),
  ("Nebraska", "NE"), ("Nevada", "NV"), ("New Hampshire", "NH"),
  ("New Jersey", "NJ"), ("New Mexico", "NM"), ("New York", "NY"),
  ("North Carolina", "NC"), ("North Dakota", "ND"), ("Ohio", "OH"),
  ("Oklahoma", "OK"), ("Oregon", "OR"), ("Pennsylvania", "PA"),
  ("Rhode Island", "RI"), ("South Carolina", "SC"), ("South Dakota", "SD"),
  ("Tennessee", "TN"), ("Texas", "TX"), ("Utah", "UT"), ("Vermont", "VT"),
  ("Virginia", "VA"), ("Washington", "WA"), ("West Virginia", "WV"),
  ("Wisconsin", "WI"), ("Wyoming", "WY")]

/-- Python dict lookup used by `df["state"].map(USPS)` (app.py line 56):
the mapped code, or `none` (pandas NaN) when the name has no entry. -/
def uspsLookup (name : String) : Option String :=
  (USPS.find? (fun p => p.1 == name)).map Prod.snd

/-- Pandas column subtraction: NaN propagates when either operand is
missing (app.py lines 52-53, the `df[a] - df[b]` part). -/
def optSub (a b : Option Int) : Option Int :=
  match a, b with
  | some x, some y => some (x - y)
  | _, _ => none

/-- The delta pipeline of app.py lines 52-53:
`(a - b).fillna(0).astype("int64").clip(lower=0)`. -/
def seriesDelta (a b : Option Int) : Int :=
  max 0 ((optSub a b).getD 0)

/-- The pandas left outer merge of app.py line 49,
`today.merge(yest, on="state", how="left")`: each current row in order,
paired with every prior row of equal key, or with NaN prior columns
when no prior row matches. -/
def leftMergeRows (today yest : List StateRow) : List MergedRow :=
  today.flatMap (fun t =>
    match yest.filter (fun y => y.state == t.state) with
    | [] => [{ state := t.state, cases_today := t.cases, deaths_today := t.deaths,
               cases_yest := none, deaths_yest := none }]
    | ms => ms.map (fun y =>
        { state := t.state, cases_today := t.cases, deaths_today := t.deaths,
          cases_yest := y.cases, deaths_yest := y.deaths }))

/-- Columns added by app.py lines 52-56: the two clipped deltas and the
USPS code. -/
def buildSnapRow (m : MergedRow) : SnapRow :=
  { state := m.state
    cases_today := m.cases_today
    deaths_today := m.deaths_today
    cases_yest := m.cases_yest
    deaths_yest := m.deaths_yest
    todayCases := seriesDelta m.cases_today m.cases_yest
    todayDeaths := seriesDelta m.deaths_today m.deaths_yest
    state_code := uspsLookup m.state }

/-- The pure core of `fetch_states_snapshot` (app.py lines 44-61), from
the two decoded JSON arrays to the returned DataFrame: merge, deltas,
code mapping, and the `df["state_code"].notna()` filter (line 59). -/
def fetch_states_snapshot (today yest : List StateRow) : List SnapRow :=
  ((leftMergeRows today yest).map buildSnapRow).filter
    (fun r => r.state_code.isSome)

/-- URL of the current-period retrieval (app.py line 33). -/
def url_today : String := "https://disease.sh/v3/covid-19/states?allowNull=true"

/-- URL of the prior-period retrieval (app.py line 39). -/
def url_yest : String :=
  "https://disease.sh/v3/covid-19/states?yesterday=true&allowNull=true"

/-- Whole-call behaviour of `fetch_states_snapshot` (app.py lines 33-42):
the current-period GET and its `raise_for_status` run first, then the
prior-period GET and its `raise_for_status`; only if both succeed is the
merged result built. -/
def fetch_states_snapshot_req (r1 r2 : Except FetchError (List StateRow)) :
    Except FetchError (List SnapRow) :=
  match r1 with
  | .error e => .error e
  | .ok today =>
    match r2 with
    | .error e => .error e
    | .ok yest => .ok (fetch_states_snapshot today yest)

/-- One element of the JSON array from the NYT endpoints: a calendar day
(`date` is the value parsed by `pd.to_datetime`, modelled as the ordinal
of the day) and the cumulative case count. The payload's other columns
are untouched by the transform and dropped by the final column
selection. -/
structure TsPoint where
  date : Nat
  cases : Int
deriving DecidableEq, Repr

/-- One row of the DataFrame returned by the time-series fetchers:
`df[["date","cases","new_cases"]]` (app.py lines 74 and 87). -/
structure TsOut where
  date : Nat
  cases : Int
  new_cases : Int
deriving DecidableEq, Repr

/-- Comparison used by `df.sort_values("date")`. -/
def dateLe (a b : TsPoint) : Bool := a.date ≤ b.date

/-- The `new_cases` column: `df["cases"].diff().fillna(0).clip(lower=0)
.astype(int)` (app.py lines 73 and 86). `diff()` leaves NaN at position
0, which `fillna(0)` turns into 0; every later position is the
difference with the previous row, clipped to be non-negative. -/
def newCasesCol : List Int → List Int
  | [] => []
  | c :: rest => 0 :: List.zipWith (fun prev cur => max 0 (cur - prev)) (c :: rest) rest

/-- Post-retrieval computation of `fetch_national_timeseries`
(app.py lines 70-74): sort ascending by date, compute the clipped first
difference, select the three output columns. -/
def national_post (payload : List TsPoint) : List TsOut :=
  let sorted := payload.mergeSort dateLe
  let newcs := newCasesCol (sorted.map (fun p => p.cases))
  List.zipWith (fun p n => { date := p.date, cases := p.cases, new_cases := n }) sorted newcs

/-- Post-retrieval computation of `fetch_state_timeseries`
(app.py lines 83-87): sort ascending by date, compute the clipped first
difference, select the three output columns. -/
def state_post (payload : List TsPoint) : List TsOut :=
  let sorted := payload.mergeSort dateLe
  let newcs := newCasesCol (sorted.map (fun p => p.cases))
  List.zipWith (fun p n => { date := p.date, cases := p.cases, new_cases := n }) sorted newcs

/-- URL of the national time-series retrieval (app.py line 66). -/
def national_url (days : Nat) : String :=
  "https://disease.sh/v3/covid-19/nyt/usa?lastdays=" ++ toString days

/-- URL of the per-state time-series retrieval (app.py line 79). -/
def state_url (state_name : String) (days : Nat) : String :=
  "https://disease.sh/v3/covid-19/nyt/states/" ++ state_name ++ "?lastdays=" ++ toString days

/-- Whole-call behaviour of `fetch_national_timeseries` (app.py lines
64-74): GET, `raise_for_status`, then the pure transform. -/
def fetch_national_timeseries (r : Except FetchError (List TsPoint)) :
    Except FetchError (List TsOut) :=
  match r with
  | .error e => .error e
  | .ok data => .ok (national_post data)

/-- Whole-call behaviour of `fetch_state_timeseries` (app.py lines
77-87): GET, `raise_for_status`, then the pure transform. -/
def fetch_state_timeseries (r : Except FetchError (List TsPoint)) :
    Except FetchError (List TsOut) :=
  match r with
  | .error e => .error e
  | .ok data => .ok (state_post data)

/-- Cache time-to-live in seconds, from `@st.cache_data(ttl=60*30)`
(app.py lines 26, 63, 76). -/
def TTL : Nat := 60 * 30

/-- Cache state for one `(function, arguments)` key: the stored result
and its creation time, or nothing before the first call. -/
structure CacheState (α : Type) where
  entry : Option (α × Nat)
deriving Repr

/-- Modelled from the spec: the memoization performed by the
`st.cache_data` decorator, whose implementation is library code not in
this repository. On first call for a key, or after TTL expiry, run the
real fetch, store `(result, timestamp)`, return the result; within TTL
return the stored result unconditionally without fetching. Returns
(result, new cache state, whether an upstream fetch happened). -/
def cached_call {α : Type} (s : CacheState α) (now : Nat) (compute : Unit → α) :
    α × CacheState α × Bool :=
  match s.entry with
  | some (res, created) =>
      if now - created < TTL then (res, s, false)
      else (compute (), ⟨some (compute (), now)⟩, true)
  | none => (compute (), ⟨some (compute (), now)⟩, true)

theorem seriesDelta_some_some (x y : Int) :
    seriesDelta (some x) (some y) = max 0 (x - y) := rfl

theorem seriesDelta_none_left (b : Option Int) : seriesDelta none b = 0 := by
  cases b <;> simp [seriesDelta, optSub]

theorem seriesDelta_none_right (a : Option Int) : seriesDelta a none = 0 := by
  cases a <;> simp [seriesDelta, optSub]

theorem seriesDelta_nonneg (a b : Option Int) : 0 ≤ seriesDelta a b :=
  le_max_left 0 _

theorem mem_snapshot (today yest : List StateRow) (r : SnapRow)
    (hr : r ∈ fetch_states_snapshot today yest) :
    ∃ m ∈ leftMergeRows today yest, r = buildSnapRow m ∧ r.state_code.isSome := by
  unfold fetch_states_snapshot at hr
  rw [List.mem_filter] at hr
  obtain ⟨hmem, hsome⟩ := hr
  obtain ⟨m, hm, hrm⟩ := List.mem_map.mp hmem
  exact ⟨m, hm, hrm.symm, hsome⟩

/-- C1: for every row of the merged snapshot output, `todayCases` equals
`max 0 (cases_today - cases_yest)` when both operands are present and
`0` when either is missing; likewise `todayDeaths`; hence both deltas
are non-negative on every row, even under a backward revision. -/
theorem snapshot_delta_spec (today yest : List StateRow) (r : SnapRow)
    (hr : r ∈ fetch_states_snapshot today yest) :
    (∀ ct cy, r.cases_today = some ct → r.cases_yest = some cy →
        r.todayCases = max 0 (ct - cy)) ∧
    ((r.cases_today = none ∨ r.cases_yest = none) → r.todayCases = 0) ∧
    (∀ dt dy, r.deaths_today = some dt → r.deaths_yest = some dy →
        r.todayDeaths = max 0 (dt - dy)) ∧
    ((r.deaths_today = none ∨ r.deaths_yest = none) → r.todayDeaths = 0) ∧
    0 ≤ r.todayCases ∧ 0 ≤ r.todayDeaths := by
  obtain ⟨m, -, rfl, -⟩ := mem_snapshot today yest r hr
  simp only [buildSnapRow]
  refine ⟨?_, ?_, ?_, ?_, seriesDelta_nonneg _ _, seriesDelta_nonneg _ _⟩
  · intro ct cy hct hcy
    rw [hct, hcy, seriesDelta_some_some]
  · rintro (h | h) <;> rw [h]
    · exact seriesDelta_none_left _
    · exact seriesDelta_none_right _
  · intro dt dy hdt hdy
    rw [hdt, hdy, seriesDelta_some_some]
  · rintro (h | h) <;> rw [h]
    · exact seriesDelta_none_left _
    · exact seriesDelta_none_right _

theorem snapshot_delta_spec_witness :
    (⟨"Texas", some 100, some 5, some 80, some 5, 20, 0, some "TX"⟩
        : SnapRow).todayCases = max 0 (100 - 80) := by
  have h := snapshot_delta_spec [⟨"Texas", some 100, some 5⟩]
      [⟨"Texas", some 80, some 5⟩]
      ⟨"Texas", some 100, some 5, some 80, some 5, 20, 0, some "TX"⟩ (by decide)
  exact h.1 100 80 rfl rfl

/-- C3: every current-period region whose name has no USPS entry is
absent from the snapshot output, and every returned row carries the
resolved code of its own name. -/
theorem snapshot_code_resolution (today yest : List StateRow) :
    (∀ r ∈ fetch_states_snapshot today yest,
        r.state_code = uspsLookup r.state ∧ (uspsLookup r.state).isSome) ∧
    (∀ t ∈ today, uspsLookup t.state = none →
        ∀ r ∈ fetch_states_snapshot today yest, r.state ≠ t.state) := by
  have key : ∀ r ∈ fetch_states_snapshot today yest,
      r.state_code = uspsLookup r.state ∧ (uspsLookup r.state).isSome := by
    intro r hr
    obtain ⟨m, -, rfl, hsome⟩ := mem_snapshot today yest r hr
    exact ⟨rfl, hsome⟩
  refine ⟨key, ?_⟩
  intro t _ hnone r hr heq
  have h2 := (key r hr).2
  rw [heq, hnone] at h2
  simp at h2

theorem snapshot_code_resolution_witness :
    (⟨"Texas", some 100, some 5, none, none, 0, 0, some "TX"⟩
        : SnapRow).state ≠ "Atlantis" := by
  have h := snapshot_code_resolution
      [⟨"Atlantis", some 5, some 1⟩, ⟨"Texas", some 100, some 5⟩] []
  exact h.2 ⟨"Atlantis", some 5, some 1⟩ (by decide) (by decide)
      ⟨"Texas", some 100, some 5, none, none, 0, 0, some "TX"⟩ (by decide)

/-- C4: the snapshot merge is a left outer join of the current rows onto
the prior rows keyed by region name: every current-period region yields
a merged row carrying its current counts, and a region with no matching
prior row gets `none` (not `0`) prior columns, so both its deltas
collapse to `0`. -/
theorem snapshot_left_join (today yest : List StateRow) :
    (∀ t ∈ today, ∃ m ∈ leftMergeRows today yest,
        m.state = t.state ∧ m.cases_today = t.cases ∧ m.deaths_today = t.deaths) ∧
    (∀ m ∈ leftMergeRows today yest,
        (∀ y ∈ yest, y.state ≠ m.state) →
        m.cases_yest = none ∧ m.deaths_yest = none ∧
        seriesDelta m.cases_today m.cases_yest = 0 ∧
        seriesDelta m.deaths_today m.deaths_yest = 0) := by
  constructor
  · intro t ht
    cases hf : yest.filter (fun y => y.state == t.state) with
    | nil =>
        refine ⟨{ state := t.state, cases_today := t.cases, deaths_today := t.deaths,
                  cases_yest := none, deaths_yest := none }, ?_, rfl, rfl, rfl⟩
        simp only [leftMergeRows, List.mem_flatMap]
        refine ⟨t, ht, ?_⟩
        rw [hf]
        exact List.mem_singleton.mpr rfl
    | cons y ys =>
        refine ⟨{ state := t.state, cases_today := t.cases, deaths_today := t.deaths,
                  cases_yest := y.cases, deaths_yest := y.deaths }, ?_, rfl, rfl, rfl⟩
        simp only [leftMergeRows, List.mem_flatMap]
        refine ⟨t, ht, ?_⟩
        rw [hf]
        exact List.mem_map.mpr ⟨y, List.mem_cons_self _ _, rfl⟩
  · intro m hm hnone
    simp only [leftMergeRows, List.mem_flatMap] at hm
    obtain ⟨t, ht, hmf⟩ := hm
    cases hf : yest.filter (fun y => y.state == t.state) with
    | nil =>
        rw [hf] at hmf
        have hme := List.mem_singleton.mp hmf
        subst hme
        exact ⟨rfl, rfl, seriesDelta_none_right _, seriesDelta_none_right _⟩
    | cons y ys =>
        rw [hf] at hmf
        obtain ⟨y2, hy2, hm2⟩ := List.mem_map.mp hmf
        have hy2f : y2 ∈ yest.filter (fun y => y.state == t.state) := by
          rw [hf]; exact hy2
        rw [List.mem_filter] at hy2f
        have hys : y2.state = t.state := by simpa using hy2f.2
        have hms : m.state = t.state := by rw [← hm2]
        exact absurd (hys.trans hms.symm) (hnone y2 hy2f.1)

theorem snapshot_left_join_witness :
    (⟨"Texas", some 100, some 5, none, none⟩ : MergedRow).cases_yest = none ∧
    (⟨"Texas", some 100, some 5, none, none⟩ : MergedRow).deaths_yest = none ∧
    seriesDelta (⟨"Texas", some 100, some 5, none, none⟩ : MergedRow).cases_today
      (⟨"Texas", some 100, some 5, none, none⟩ : MergedRow).cases_yest = 0 ∧
    seriesDelta (⟨"Texas", some 100, some 5, none, none⟩ : MergedRow).deaths_today
      (⟨"Texas", some 100, some 5, none, none⟩ : MergedRow).deaths_yest = 0 := by
  have h := snapshot_left_join [⟨"Texas", some 100, some 5⟩] []
  exact h.2 ⟨"Texas", some 100, some 5, none, none⟩ (by decide) (by decide)

/-- C5: the snapshot call is atomic with respect to failure: if the
current-period retrieval fails its error is the whole call's outcome;
if it succeeds but the prior-period retrieval fails, that error is the
whole call's outcome; and a successful outcome implies both retrievals
succeeded and the result is the full merged computation over both. -/
theorem snapshot_atomic (r1 r2 : Except FetchError (List StateRow)) :
    (∀ e, r1 = .error e → fetch_states_snapshot_req r1 r2 = .error e) ∧
    (∀ today e, r1 = .ok today → r2 = .error e →
        fetch_states_snapshot_req r1 r2 = .error e) ∧
    (∀ out, fetch_states_snapshot_req r1 r2 = .ok out →
        ∃ today yest, r1 = .ok today ∧ r2 = .ok yest ∧
          out = fetch_states_snapshot today yest) := by
  refine ⟨?_, ?_, ?_⟩
  · intro e he; subst he; rfl
  · intro today e h1 h2; subst h1; subst h2; rfl
  · intro out hout
    cases r1 with
    | error e => simp [fetch_states_snapshot_req] at hout
    | ok today =>
      cases r2 with
      | error e => simp [fetch_states_snapshot_req] at hout
      | ok yest =>
        refine ⟨today, yest, rfl, rfl, ?_⟩
        simp only [fetch_states_snapshot_req, Except.ok.injEq] at hout
        exact hout.symm

theorem snapshot_atomic_witness :
    fetch_states_snapshot_req (.error .network) (.ok []) = .error .network :=
  (snapshot_atomic (.error .network) (.ok [])).1 .network rfl

theorem state_post_eq_national (payload : List TsPoint) :
    state_post payload = national_post payload := rfl

theorem newCasesCol_length (cs : List Int) :
    (newCasesCol cs).length = cs.length := by
  cases cs with
  | nil => rfl
  | cons c rest => simp [newCasesCol]

theorem newCasesCol_get_zero (cs : List Int)
    (h : 0 < (newCasesCol cs).length) :
    (newCasesCol cs).get ⟨0, h⟩ = 0 := by
  cases cs with
  | nil => simp [newCasesCol] at h
  | cons c rest => rfl

theorem newCasesCol_get_succ (cs : List Int) (i : Nat)
    (h : i + 1 < (newCasesCol cs).length)
    (ha : i + 1 < cs.length) (hb : i < cs.length) :
    (newCasesCol cs).get ⟨i + 1, h⟩ =
      max 0 (cs.get ⟨i + 1, ha⟩ - cs.get ⟨i, hb⟩) := by
  cases cs with
  | nil => simp at ha
  | cons c rest => simp [newCasesCol, List.get_eq_getElem]

theorem post_length (payload : List TsPoint) :
    (national_post payload).length = payload.length := by
  simp [national_post, newCasesCol_length]

theorem post_get_date (payload : List TsPoint) (i : Nat)
    (h : i < (national_post payload).length)
    (h2 : i < (payload.mergeSort dateLe).length) :
    ((national_post payload).get ⟨i, h⟩).date =
      ((payload.mergeSort dateLe).get ⟨i, h2⟩).date := by
  simp [national_post, List.get_eq_getElem]

theorem post_get_cases (payload : List TsPoint) (i : Nat)
    (h : i < (national_post payload).length)
    (h2 : i < (payload.mergeSort dateLe).length) :
    ((national_post payload).get ⟨i, h⟩).cases =
      ((payload.mergeSort dateLe).get ⟨i, h2⟩).cases := by
  simp [national_post, List.get_eq_getElem]

theorem post_get_new (payload : List TsPoint) (i : Nat)
    (h : i < (national_post payload).length)
    (h3 : i < (newCasesCol ((payload.mergeSort dateLe).map (fun p => p.cases))).length) :
    ((national_post payload).get ⟨i, h⟩).new_cases =
      (newCasesCol ((payload.mergeSort dateLe).map (fun p => p.cases))).get ⟨i, h3⟩ := by
  simp [national_post, List.get_eq_getElem]

/-- Specification of the clipped first-difference output: the first
point's `new_cases` is 0; every later point's `new_cases` is the clipped
difference of its cumulative count with the previous point's; and every
`new_cases` is non-negative. -/
def firstDiffSpec (out : List TsOut) : Prop :=
  (∀ h : 0 < out.length, (out.get ⟨0, h⟩).new_cases = 0) ∧
  (∀ i : Nat, ∀ h : i + 1 < out.length,
      (out.get ⟨i + 1, h⟩).new_cases =
        max 0 ((out.get ⟨i + 1, h⟩).cases -
               (out.get ⟨i, Nat.lt_of_succ_lt h⟩).cases)) ∧
  (∀ q ∈ out, 0 ≤ q.new_cases)

theorem national_first_zero (payload : List TsPoint)
    (h : 0 < (national_post payload).length) :
    ((national_post payload).get ⟨0, h⟩).new_cases = 0 := by
  have h3 : 0 < (newCasesCol ((payload.mergeSort dateLe).map (fun p => p.cases))).length := by
    rw [newCasesCol_length, List.length_map, List.length_mergeSort]
    rw [post_length] at h
    exact h
  rw [post_get_new payload 0 h h3, newCasesCol_get_zero _ h3]

theorem national_succ_diff (payload : List TsPoint) (i : Nat)
    (h : i + 1 < (national_post payload).length) :
    ((national_post payload).get ⟨i + 1, h⟩).new_cases =
      max 0 (((national_post payload).get ⟨i + 1, h⟩).cases -
             ((national_post payload).get ⟨i, Nat.lt_of_succ_lt h⟩).cases) := by
  have hp : i + 1 < payload.length := by rw [post_length] at h; exact h
  have hs1 : i + 1 < (payload.mergeSort dateLe).length := by
    rw [List.length_mergeSort]; exact hp
  have hs0 : i < (payload.mergeSort dateLe).length := Nat.lt_of_succ_lt hs1
  have hm1 : i + 1 < ((payload.mergeSort dateLe).map (fun p => p.cases)).length := by
    rw [List.length_map]; exact hs1
  have hm0 : i < ((payload.mergeSort dateLe).map (fun p => p.cases)).length :=
    Nat.lt_of_succ_lt hm1
  have h3 : i + 1 <
      (newCasesCol ((payload.mergeSort dateLe).map (fun p => p.cases))).length := by
    rw [newCasesCol_length]; exact hm1
  rw [post_get_new payload (i + 1) h h3,
      newCasesCol_get_succ _ i h3 hm1 hm0,
      post_get_cases payload (i + 1) h hs1,
      post_get_cases payload i (Nat.lt_of_succ_lt h) hs0]
  simp [List.get_eq_getElem]

theorem national_new_nonneg (payload : List TsPoint) :
    ∀ q ∈ national_post payload, 0 ≤ q.new_cases := by
  intro q hq
  rw [List.mem_iff_getElem] at hq
  obtain ⟨i, hi, hqe⟩ := hq
  subst hqe
  show 0 ≤ ((national_post payload).get ⟨i, hi⟩).new_cases
  have h3 : i < (newCasesCol ((payload.mergeSort dateLe).map (fun p => p.cases))).length := by
    rw [newCasesCol_length, List.length_map, List.length_mergeSort]
    rw [post_length] at hi
    exact hi
  rw [post_get_new payload i hi h3]
  cases i with
  | zero => rw [newCasesCol_get_zero _ h3]
  | succ k =>
      have ha : k + 1 < ((payload.mergeSort dateLe).map (fun p => p.cases)).length := by
        rw [← newCasesCol_length]; exact h3
      have hb : k < ((payload.mergeSort dateLe).map (fun p => p.cases)).length :=
        Nat.lt_of_succ_lt ha
      rw [newCasesCol_get_succ _ k h3 ha hb]
      exact le_max_left 0 _

theorem national_firstDiff (payload : List TsPoint) :
    firstDiffSpec (national_post payload) :=
  ⟨national_first_zero payload, national_succ_diff payload,
   national_new_nonneg payload⟩

/-- C2: for both time-series fetchers, the first output point's
`new_cases` is 0, every later point's `new_cases` is
`max 0 (cases at i - cases at i-1)` over the returned (sorted) series,
and every `new_cases` is non-negative. -/
theorem timeseries_first_diff (payload : List TsPoint) :
    firstDiffSpec (national_post payload) ∧ firstDiffSpec (state_post payload) := by
  refine ⟨national_firstDiff payload, ?_⟩
  rw [state_post_eq_national]
  exact national_firstDiff payload

theorem timeseries_first_diff_witness :
    ((national_post [⟨1, 10⟩, ⟨2, 10⟩, ⟨3, 25⟩]).get
        ⟨2, by rw [post_length]; decide⟩).new_cases =
      max 0 (((national_post [⟨1, 10⟩, ⟨2, 10⟩, ⟨3, 25⟩]).get
            ⟨2, by rw [post_length]; decide⟩).cases -
          ((national_post [⟨1, 10⟩, ⟨2, 10⟩, ⟨3, 25⟩]).get
            ⟨1, by rw [post_length]; decide⟩).cases) := by
  have h := (timeseries_first_diff [⟨1, 10⟩, ⟨2, 10⟩, ⟨3, 25⟩]).1
  exact h.2.1 1 (by rw [post_length]; decide)

theorem national_sorted (payload : List TsPoint) :
    List.Pairwise (fun a b : TsOut => a.date ≤ b.date) (national_post payload) := by
  have htrans : ∀ a b c : TsPoint, dateLe a b → dateLe b c → dateLe a c := by
    intro a b c hab hbc
    simp only [dateLe, decide_eq_true_eq] at hab hbc ⊢
    omega
  have htotal : ∀ a b : TsPoint, dateLe a b || dateLe b a := by
    intro a b
    simp only [dateLe, Bool.or_eq_true, decide_eq_true_eq]
    omega
  have hs := List.sorted_mergeSort htrans htotal payload
  rw [List.pairwise_iff_getElem] at hs ⊢
  intro i j hi hj hij
  have hi2 : i < (payload.mergeSort dateLe).length := by
    rw [List.length_mergeSort]
    rw [post_length] at hi
    exact hi
  have hj2 : j < (payload.mergeSort dateLe).length := by
    rw [List.length_mergeSort]
    rw [post_length] at hj
    exact hj
  have hsij := hs i j hi2 hj2 hij
  show ((national_post payload).get ⟨i, hi⟩).date ≤
    ((national_post payload).get ⟨j, hj⟩).date
  rw [post_get_date payload i hi hi2, post_get_date payload j hj hj2]
  simpa [dateLe, List.get_eq_getElem] using hsij

/-- C7: for every payload, whatever the delivery order of the daily
points, both fetchers return a sequence sorted in ascending order by
date; the sort happens before the first-difference computation. -/
theorem timeseries_sorted_by_date (payload : List TsPoint) :
    List.Pairwise (fun a b : TsOut => a.date ≤ b.date) (national_post payload) ∧
    List.Pairwise (fun a b : TsOut => a.date ≤ b.date) (state_post payload) := by
  refine ⟨national_sorted payload, ?_⟩
  rw [state_post_eq_national]
  exact national_sorted payload

/-- C8: a successful state time-series retrieval never fails in the
fetcher and yields exactly one output point per payload point: the
output length equals the payload length, with no padding, truncation,
or minimum-length requirement. -/
theorem state_timeseries_length (payload : List TsPoint) :
    fetch_state_timeseries (.ok payload) = .ok (state_post payload) ∧
    (state_post payload).length = payload.length := by
  refine ⟨rfl, ?_⟩
  rw [state_post_eq_national, post_length]

/-- C10: the two time-series fetchers apply the same post-retrieval
computation — same date handling, same ascending sort, same clipped
first difference, same selected columns — so on every payload they
produce the same output sequence; they differ only in the URL
requested. -/
theorem post_transform_equal :
    ∀ payload : List TsPoint, national_post payload = state_post payload :=
  fun _ => rfl

/-- C6: the cache is memoized per key with a TTL of exactly 1800
seconds: within the TTL a call returns the stored result unconditionally
without an upstream fetch; on a first call or after expiry it performs
the real fetch and stores the result; and two snapshot calls within the
TTL window return the identical record set with no second fetch. -/
theorem cache_ttl_behavior {α : Type} (res : α) (created now : Nat)
    (compute : Unit → α) :
    (now - created < TTL →
        cached_call ⟨some (res, created)⟩ now compute =
          (res, ⟨some (res, created)⟩, false)) ∧
    (¬ now - created < TTL →
        cached_call ⟨some (res, created)⟩ now compute =
          (compute (), ⟨some (compute (), now)⟩, true)) ∧
    cached_call (⟨none⟩ : CacheState α) now compute =
      (compute (), ⟨some (compute (), now)⟩, true) ∧
    TTL = 1800 ∧
    (∀ t0 t1 : Nat, ∀ today yest : List StateRow, t1 - t0 < TTL →
        (cached_call (cached_call (⟨none⟩ : CacheState (List SnapRow)) t0
            (fun _ => fetch_states_snapshot today yest)).2.1 t1
            (fun _ => fetch_states_snapshot today yest)).1 =
          fetch_states_snapshot today yest ∧
        (cached_call (cached_call (⟨none⟩ : CacheState (List SnapRow)) t0
            (fun _ => fetch_states_snapshot today yest)).2.1 t1
            (fun _ => fetch_states_snapshot today yest)).2.2 = false) := by
  refine ⟨?_, ?_, rfl, rfl, ?_⟩
  · intro h
    simp [cached_call, h]
  · intro h
    simp [cached_call, h]
  · intro t0 t1 today yest h
    simp [cached_call, h]

theorem cache_ttl_behavior_witness :
    cached_call (⟨some (42, 100)⟩ : CacheState Nat) 200 (fun _ => 7) =
      (42, ⟨some (42, 100)⟩, false) :=
  (cache_ttl_behavior 42 100 200 (fun _ => 7)).1 (by decide)

/-- C9: the USPS table has exactly 51 entries, its names are pairwise
distinct, and its codes are pairwise distinct, so the name-to-code map
is injective and a reverse lookup from code to name is well-defined on
exactly the 51 entries. -/
theorem usps_injective :
    USPS.length = 51 ∧ (USPS.map Prod.fst).Nodup ∧ (USPS.map Prod.snd).Nodup := by
  refine ⟨rfl, ?_, ?_⟩ <;> decide
